import Mathlib

/-!
# Verification of the multi-tenant insurance-claims backend

A shallow embedding of the claims platform's core: the tenant- and
role-scoped data gateway (`ClaimRepository` over an in-memory list of
rows standing for the `claims` table), the claim state machine
(`updateStatus` / `updateStatusInternal`), the claims service, and the
idempotent background job processors.

Modelling conventions:
* database tables are Lean lists of rows; `SELECT ... LIMIT 1` is
  `List.find?`, `WHERE` clauses are boolean predicates, `UPDATE ...
  WHERE id = x` maps the row with that id;
* timestamps (`new Date()`) are `Nat` values passed in explicitly;
* JS `string` is `String`, nullable / optional fields are `Option`;
* monetary amounts are `Rat` (the source compares JS numbers exactly);
* thrown domain errors are `Except Err`; a transaction that throws
  leaves the database unchanged, so error results carry no database.
-/

/-- Claim workflow status (`ClaimStatus` in shared/types). -/
inductive ClaimStatus
  | submitted
  | under_review
  | approved
  | rejected
  | paid
deriving DecidableEq, Repr

/-- User roles (`UserRole` in shared/types). -/
inductive UserRole
  | admin
  | claims_processor
  | provider
  | patient
deriving DecidableEq, Repr

/-- Text of a role, as used in error messages. -/
def roleText : UserRole → String
  | .admin => "admin"
  | .claims_processor => "claims_processor"
  | .provider => "provider"
  | .patient => "patient"

/-- Text of a status, as stored in the `status` varchar column. -/
def statusText : ClaimStatus → String
  | .submitted => "submitted"
  | .under_review => "under_review"
  | .approved => "approved"
  | .rejected => "rejected"
  | .paid => "paid"

/-- `TenantContext` from shared/types: the per-request access context. -/
structure TenantContext where
  organizationId : String
  userId : String
  role : UserRole
  assignedClaimIds : Option (List String) := none
  providerId : Option String := none
  patientId : Option String := none
deriving DecidableEq, Repr

/-- One entry of a claim's append-only status history
(`ClaimStatusChange` in domain/entities). -/
structure ClaimStatusChange where
  fromStatus : Option ClaimStatus
  toStatus : ClaimStatus
  changedBy : String
  changedAt : Nat
  reason : Option String := none
deriving DecidableEq, Repr

/-- A claim row / domain entity (`Claim` in domain/entities; the
`claims` table row carries the same fields). `id` is the primary key:
the store guarantees at most one row per id. -/
structure Claim where
  id : String
  organizationId : String
  claimNumber : String
  patientId : String
  providerId : String
  diagnosisCode : String
  amount : Rat
  status : ClaimStatus
  serviceDate : Nat
  submittedAt : Nat
  processedAt : Option Nat := none
  paidAt : Option Nat := none
  notes : Option String := none
  assignedTo : Option String := none
  denialReason : Option String := none
  statusHistory : List ClaimStatusChange := []
  createdAt : Nat := 0
  updatedAt : Nat := 0
deriving DecidableEq, Repr

/-- Domain error kinds (domain/errors). Only the constructor and its
identifying data are modelled; HTTP codes are presentation glue. -/
inductive Err
  | notFound (resource : String) (identifier : String)
  | forbidden (message : String)
  | invalidDiagnosisCode (code : String)
  | invalidClaimAmount (amount min max : Rat)
  | claimNotModifiable (claimId : String) (status : ClaimStatus)
deriving DecidableEq, Repr

/-- `PermissionHelper.canCreateClaims` (base.repository):
admin, claims_processor and provider may create claims. -/
def PermissionHelper.canCreateClaims (role : UserRole) : Bool :=
  match role with
  | .admin => true
  | .claims_processor => true
  | .provider => true
  | .patient => false

/-- `PermissionHelper.canUpdateClaimStatus` (base.repository):
only admin and claims_processor may update claim status. -/
def PermissionHelper.canUpdateClaimStatus (role : UserRole) : Bool :=
  match role with
  | .admin => true
  | .claims_processor => true
  | .provider => false
  | .patient => false

/-- `PermissionHelper.requirePermission` (base.repository): throws a
ForbiddenError naming the action and role when not allowed. -/
def PermissionHelper.requirePermission (allowed : Bool) (action : String)
    (role : UserRole) : Except Err Unit :=
  if allowed then .ok ()
  else .error (.forbidden ("Role " ++ roleText role ++ " is not allowed to " ++ action))

/-- `ClaimRepository.buildRoleFilter` (claim.repository): the
role-dependent predicate added to every query. The SQL literal
condition `claims.id = 'no-access'` is embedded verbatim as the
predicate `c.id == "no-access"`; claim ids are database-generated
UUIDs, so no real row carries that id. -/
def ClaimRepository.buildRoleFilter (context : TenantContext) (c : Claim) : Bool :=
  match context.role with
  | .admin => true
  | .claims_processor =>
    match context.assignedClaimIds with
    | none => c.id == "no-access"
    | some ids => if ids.length == 0 then c.id == "no-access" else ids.contains c.id
  | .provider =>
    match context.providerId with
    | none => c.id == "no-access"
    | some pid => c.providerId == pid
  | .patient =>
    match context.patientId with
    | none => c.id == "no-access"
    | some pid => c.patientId == pid

/-- The tenant predicate (`BaseTenantRepository.getTenantFilter`):
entity's organization id equals the context's organization id. -/
def tenantFilter (context : TenantContext) (c : Claim) : Bool :=
  c.organizationId == context.organizationId

/-- The scoped lookup used by `findById` and `updateStatus`:
`withTenantFilter(context, eq(claims.id, id), roleFilter)` followed by
`LIMIT 1`. -/
def ClaimRepository.scopedFind (id : String) (context : TenantContext)
    (db : List Claim) : Option Claim :=
  db.find? (fun c =>
    tenantFilter context c && c.id == id && ClaimRepository.buildRoleFilter context c)

/-- `ClaimRepository.findById` (claim.repository): tenant + id + role
filter, first match or null. -/
def ClaimRepository.findById (id : String) (context : TenantContext)
    (db : List Claim) : Option Claim :=
  ClaimRepository.scopedFind id context db

/-- `ClaimsService.getClaimById` (claims.service): surfaces a null
repository result as `NotFoundError("Claim", id)`. -/
def ClaimsService.getClaimById (id : String) (context : TenantContext)
    (db : List Claim) : Except Err Claim :=
  match ClaimRepository.findById id context db with
  | none => .error (.notFound "Claim" id)
  | some c => .ok c

/-- C1: a caller whose organization differs from a claim's organization
gets the identical not-found outcome (`null` from `findById`, surfaced
as `NotFoundError` by the service) as for a genuinely nonexistent id,
regardless of role. Stated uniformly: whenever no claim with the
queried id belongs to the caller's organization — because the id does
not exist at all, or because every such claim lives in another tenant —
`findById` returns `none` and `getClaimById` returns exactly
`NotFoundError("Claim", id)`. -/
theorem C1_tenant_isolation (db : List Claim) (context : TenantContext) (i : String)
    (h : ∀ c ∈ db, c.id = i → c.organizationId ≠ context.organizationId) :
    ClaimRepository.findById i context db = none ∧
    ClaimsService.getClaimById i context db = .error (.notFound "Claim" i) := by
  have hfind : ClaimRepository.scopedFind i context db = none := by
    apply List.find?_eq_none.mpr
    intro c hc
    simp only [Bool.and_eq_true, beq_iff_eq, tenantFilter, not_and]
    rintro ⟨horg, hid⟩ _
    exact absurd horg (h c hc hid)
  refine ⟨hfind, ?_⟩
  simp [ClaimsService.getClaimById, ClaimRepository.findById, hfind]

/-- A claim of organization `org-1` used in concrete instantiations. -/
def exClaim1 : Claim :=
  { id := "claim-1"
    organizationId := "org-1"
    claimNumber := "CLM-HF-001"
    patientId := "patient-1"
    providerId := "provider-1"
    diagnosisCode := "J06.9"
    amount := 250
    status := .submitted
    serviceDate := 10
    submittedAt := 11
    assignedTo := some "processor-user-1"
    statusHistory := [{ fromStatus := none, toStatus := .submitted,
                        changedBy := "provider-user-1", changedAt := 11,
                        reason := some "Initial submission" }] }

/-- An admin context of a different organization `org-2`. -/
def exAdmin2 : TenantContext :=
  { organizationId := "org-2", userId := "admin-2", role := .admin }

/-- Witness for C1: the org-2 admin looking up org-1's `claim-1` gets
exactly the outcome of looking up a nonexistent id. -/
theorem C1_tenant_isolation_witness :
    ClaimRepository.findById "claim-1" exAdmin2 [exClaim1] = none ∧
    ClaimsService.getClaimById "claim-1" exAdmin2 [exClaim1] =
      .error (.notFound "Claim" "claim-1") :=
  C1_tenant_isolation [exClaim1] exAdmin2 "claim-1" (by decide)

/-- `ClaimFilters` (domain/repositories). The source's
`status?: ClaimStatus | ClaimStatus[]` builds `eq` for a single value
and `inArray` for an array; both are membership in a list, so a single
status is embedded as the singleton list. -/
structure ClaimFilters where
  fromDate : Option Nat := none
  toDate : Option Nat := none
  status : Option (List ClaimStatus) := none
  patientId : Option String := none
  providerId : Option String := none
  minAmount : Option Rat := none
  maxAmount : Option Rat := none
  assignedTo : Option String := none
deriving Repr

/-- `ClaimRepository.buildFilterConditions`: the conjunction of the
optional filter conditions. An `eq` against a NULL column (for
`assignedTo`) is false, as in SQL. -/
def ClaimRepository.buildFilterConditions (filters : ClaimFilters) (c : Claim) : Bool :=
  (match filters.fromDate with
   | none => true
   | some d => decide (d ≤ c.serviceDate)) &&
  (match filters.toDate with
   | none => true
   | some d => decide (c.serviceDate ≤ d)) &&
  (match filters.status with
   | none => true
   | some ss => ss.contains c.status) &&
  (match filters.patientId with
   | none => true
   | some p => c.patientId == p) &&
  (match filters.providerId with
   | none => true
   | some p => c.providerId == p) &&
  (match filters.minAmount with
   | none => true
   | some m => decide (m ≤ c.amount)) &&
  (match filters.maxAmount with
   | none => true
   | some m => decide (c.amount ≤ m)) &&
  (match filters.assignedTo with
   | none => true
   | some a => c.assignedTo == some a)

/-- Sortable fields of `ClaimSortField` (domain/repositories). -/
inductive ClaimSortBy
  | createdAt
  | amount
  | status
  | serviceDate
deriving DecidableEq, Repr

/-- Sort direction. -/
inductive SortOrder
  | asc
  | desc
deriving DecidableEq, Repr

/-- `ClaimSortField`. -/
structure ClaimSortField where
  field : ClaimSortBy
  order : SortOrder
deriving Repr

/-- Lexicographic comparison of character lists: the ordering the
database applies to varchar columns. (Defined structurally so that it
evaluates inside the kernel.) -/
def charListLE : List Char → List Char → Bool
  | [], _ => true
  | _ :: _, [] => false
  | a :: as, b :: bs =>
    if a < b then true else if b < a then false else charListLE as bs

/-- Non-strict comparison on one sortable column. -/
def ClaimRepository.fieldLE : ClaimSortBy → Claim → Claim → Bool
  | .createdAt, a, b => decide (a.createdAt ≤ b.createdAt)
  | .amount, a, b => decide (a.amount ≤ b.amount)
  | .status, a, b => charListLE (statusText a.status).data (statusText b.status).data
  | .serviceDate, a, b => decide (a.serviceDate ≤ b.serviceDate)

/-- `ClaimRepository.buildSortOrder`: the comparison used by
`ORDER BY`; absent sort means `desc(createdAt)`. -/
def ClaimRepository.buildSortOrder (sort : Option ClaimSortField)
    (a b : Claim) : Bool :=
  match sort with
  | none => decide (b.createdAt ≤ a.createdAt)
  | some s =>
    match s.order with
    | .asc => ClaimRepository.fieldLE s.field a b
    | .desc => ClaimRepository.fieldLE s.field b a

/-- Stable insertion into a sorted list (helper for `sortClaims`). -/
def sortInsert (le : Claim → Claim → Bool) (c : Claim) : List Claim → List Claim
  | [] => [c]
  | d :: ds => if le c d then c :: d :: ds else d :: sortInsert le c ds

/-- A stable sort embedding the database's `ORDER BY` (SQL prescribes
only the ordering, not the algorithm; insertion sort is stable and
evaluates inside the kernel). -/
def sortClaims (le : Claim → Claim → Bool) : List Claim → List Claim
  | [] => []
  | c :: cs => sortInsert le c (sortClaims le cs)

/-- `PaginatedResult` (shared/types), restricted to the fields the
repository fills. -/
structure PaginatedResult where
  data : List Claim
  total : Nat
  limit : Nat
  offset : Nat
  hasMore : Bool
  nextCursor : Option String
deriving Repr

/-- `ClaimRepository.findMany`: tenant + role + filter conditions, then
sort, offset/limit pagination, and the total count over the same
`WHERE` clause. -/
def ClaimRepository.findMany (context : TenantContext)
    (filters : Option ClaimFilters) (sort : Option ClaimSortField)
    (limit : Nat) (offset : Nat) (db : List Claim) : PaginatedResult :=
  let whereCondition := fun c =>
    tenantFilter context c && ClaimRepository.buildRoleFilter context c &&
      (match filters with
       | none => true
       | some f => ClaimRepository.buildFilterConditions f c)
  let matched := db.filter whereCondition
  let rows := ((sortClaims (ClaimRepository.buildSortOrder sort) matched).drop offset).take limit
  let total := matched.length
  { data := rows
    total := total
    limit := limit
    offset := offset
    hasMore := decide (offset + rows.length < total)
    nextCursor := if rows.length == limit then (rows.getLast?).map Claim.id else none }

/-- `ClaimRepository.count`: `COUNT(*)` under tenant + role + filter
conditions. -/
def ClaimRepository.count (context : TenantContext)
    (filters : Option ClaimFilters) (db : List Claim) : Nat :=
  (db.filter (fun c =>
    tenantFilter context c && ClaimRepository.buildRoleFilter context c &&
      (match filters with
       | none => true
       | some f => ClaimRepository.buildFilterConditions f c))).length

/-- `ClaimRepository.updateStatus` (claim.repository): permission gate,
tenant+role scoped lookup, terminal-state check, processor-assignment
check, history append, first-time processed/paid timestamps, persist.
Runs in one transaction: a thrown error leaves the table unchanged, so
the error outcomes carry no table. `claims.id` is the primary key, so
the row updated by `WHERE id = ?` and returned by `RETURNING` is the
row found by the scoped lookup. -/
def ClaimRepository.updateStatus (id : String) (newStatus : ClaimStatus)
    (context : TenantContext) (reason : Option String) (now : Nat)
    (db : List Claim) : Except Err (Option Claim × List Claim) :=
  match PermissionHelper.requirePermission
      (PermissionHelper.canUpdateClaimStatus context.role)
      "update claim status" context.role with
  | .error e => .error e
  | .ok _ =>
    match ClaimRepository.scopedFind id context db with
    | none => .ok (none, db)
    | some claim =>
      if claim.status = .approved ∨ claim.status = .paid then
        .error (.claimNotModifiable id claim.status)
      else if context.role = .claims_processor ∧ claim.assignedTo ≠ some context.userId then
        .error (.forbidden "Claims processors can only update their assigned claims")
      else
        let statusChange : ClaimStatusChange :=
          { fromStatus := some claim.status, toStatus := newStatus,
            changedBy := context.userId, changedAt := now, reason := reason }
        let processedAt :=
          if (newStatus = .approved ∨ newStatus = .rejected) ∧ claim.processedAt = none
          then some now else claim.processedAt
        let paidAt :=
          if newStatus = .paid ∧ claim.paidAt = none then some now else claim.paidAt
        let apply := fun (c : Claim) =>
          { c with status := newStatus,
                   statusHistory := claim.statusHistory ++ [statusChange],
                   processedAt := processedAt, paidAt := paidAt,
                   updatedAt := now }
        .ok (some (apply claim), db.map (fun c => if c.id == id then apply c else c))

/-- The org-scoped lookup used by `updateStatusInternal`:
`WHERE id = ? AND organization_id = ? LIMIT 1`. -/
def ClaimRepository.internalFind (id organizationId : String)
    (db : List Claim) : Option Claim :=
  db.find? (fun c => c.id == id && c.organizationId == organizationId)

/-- `ClaimRepository.updateStatusInternal` (claim.repository): the
Processors' trusted path. Org-scoped lookup (no role filter); an
approved/paid claim is silently skipped (`return null`, no exception);
otherwise sets status, appends history and bumps `updatedAt` — and
nothing else (no processed/paid timestamps). -/
def ClaimRepository.updateStatusInternal (id organizationId : String)
    (newStatus : ClaimStatus) (changedBy : String) (reason : Option String)
    (now : Nat) (db : List Claim) : Option Claim × List Claim :=
  match ClaimRepository.internalFind id organizationId db with
  | none => (none, db)
  | some claim =>
    if claim.status = .approved ∨ claim.status = .paid then
      (none, db)
    else
      let statusChange : ClaimStatusChange :=
        { fromStatus := some claim.status, toStatus := newStatus,
          changedBy := changedBy, changedAt := now, reason := reason }
      let apply := fun (c : Claim) =>
        { c with status := newStatus,
                 statusHistory := claim.statusHistory ++ [statusChange],
                 updatedAt := now }
      (some (apply claim), db.map (fun c => if c.id == id then apply c else c))

/-- `VALID_DIAGNOSIS_CODES` (domain/entities). -/
def VALID_DIAGNOSIS_CODES : List String :=
  ["J06.9", "J18.9", "K21.0", "M54.5", "I10", "E11.9", "F32.9",
   "J45.909", "N39.0", "R51", "S62.309A", "Z00.00"]

/-- `CLAIM_AMOUNT_CONSTRAINTS.MIN` (domain/entities): 0.01, written
with explicit numerator and denominator so that comparisons against it
evaluate inside the kernel. -/
def CLAIM_AMOUNT_MIN : Rat := ⟨1, 100, by norm_num, by norm_num⟩

/-- `CLAIM_AMOUNT_CONSTRAINTS.MAX` (domain/entities). -/
def CLAIM_AMOUNT_MAX : Rat := 1000000

/-- A tenant-scoped reference row (provider or patient): the fields
`exists` looks at. -/
structure RefEntity where
  id : String
  organizationId : String
deriving DecidableEq, Repr

/-- `ProviderRepository.exists` / `PatientRepository.exists`
(provider.repository): `COUNT(*) > 0` under the tenant filter plus id
equality. -/
def existsInTenant (id : String) (context : TenantContext)
    (rows : List RefEntity) : Bool :=
  rows.any (fun r => r.organizationId == context.organizationId && r.id == id)

/-- `CreateClaimInput` (application/validators): the validated create
payload. -/
structure CreateClaimInput where
  patientId : String
  providerId : String
  diagnosisCode : String
  amount : Rat
  serviceDate : Nat
  procedureCode : Option String := none
  notes : Option String := none
deriving DecidableEq, Repr

/-- `ClaimRepository.create` (claim.repository): permission gate, then
the provider self-restriction, then the insert with status `submitted`
and a single initial history entry. The generated claim number (wall
clock + randomness) and the database-generated row id are passed in as
parameters. -/
def ClaimRepository.create (data : CreateClaimInput) (context : TenantContext)
    (claimNumber freshId : String) (now : Nat) (db : List Claim) :
    Except Err (Claim × List Claim) :=
  match PermissionHelper.requirePermission
      (PermissionHelper.canCreateClaims context.role) "create claims" context.role with
  | .error e => .error e
  | .ok _ =>
    if context.role = .provider ∧ some data.providerId ≠ context.providerId then
      .error (.forbidden "Providers can only create claims for themselves")
    else
      let initialStatusChange : ClaimStatusChange :=
        { fromStatus := none, toStatus := .submitted,
          changedBy := context.userId, changedAt := now,
          reason := some "Initial submission" }
      let claim : Claim :=
        { id := freshId
          organizationId := context.organizationId
          claimNumber := claimNumber
          patientId := data.patientId
          providerId := data.providerId
          diagnosisCode := data.diagnosisCode
          amount := data.amount
          status := .submitted
          serviceDate := data.serviceDate
          submittedAt := now
          notes := data.notes
          statusHistory := [initialStatusChange]
          createdAt := now
          updatedAt := now }
      .ok (claim, db ++ [claim])

/-- `ClaimsService.createClaim` (claims.service), with its exact check
order: diagnosis code → amount bounds → patient existence → provider
existence → provider self-restriction → repository create. -/
def ClaimsService.createClaim (input : CreateClaimInput) (context : TenantContext)
    (patients providers : List RefEntity) (claimNumber freshId : String)
    (now : Nat) (db : List Claim) : Except Err (Claim × List Claim) :=
  if ¬ VALID_DIAGNOSIS_CODES.contains input.diagnosisCode then
    .error (.invalidDiagnosisCode input.diagnosisCode)
  else if input.amount < CLAIM_AMOUNT_MIN ∨ input.amount > CLAIM_AMOUNT_MAX then
    .error (.invalidClaimAmount input.amount CLAIM_AMOUNT_MIN CLAIM_AMOUNT_MAX)
  else if ¬ existsInTenant input.patientId context patients then
    .error (.notFound "Patient" input.patientId)
  else if ¬ existsInTenant input.providerId context providers then
    .error (.notFound "Provider" input.providerId)
  else if context.role = .provider ∧ some input.providerId ≠ context.providerId then
    .error (.forbidden "Providers can only create claims for themselves")
  else
    ClaimRepository.create input context claimNumber freshId now db

/-- `ClaimRepository.findByPatientIdInternal` (claim.repository):
org + patient scoped, optional status filter (empty list = no filter,
matching the absent-parameter case), ordered by `createdAt` descending. -/
def ClaimRepository.findByPatientIdInternal (patientId organizationId : String)
    (statusFilter : List ClaimStatus) (db : List Claim) : List Claim :=
  sortClaims (fun a b => decide (b.createdAt ≤ a.createdAt))
    (db.filter (fun c =>
      c.organizationId == organizationId && c.patientId == patientId &&
        (statusFilter.isEmpty || statusFilter.contains c.status)))

/-- Job ledger entry status (`JobProcessingLog.status`). -/
inductive JobStatus
  | pending
  | processing
  | completed
  | failed
deriving DecidableEq, Repr

/-- The result payload a processor stores on completion. The three
processors name the count field `claimsUpdated` / `claimsApproved` /
`claimsReviewed` respectively; its shape — a count plus the list of
affected claim ids — is identical. -/
structure JobResult where
  count : Nat
  claimIds : List String
deriving DecidableEq, Repr

/-- The job payload (`BaseJobData` in shared/types; `treatmentType` is
the extra field of `TreatmentInitiatedJobData`). The processors also
store this payload on the ledger row they create. -/
structure JobPayload where
  jobId : String
  organizationId : String
  patientId : String
  triggeredBy : String
  idempotencyKey : String
  treatmentType : Option String := none
deriving DecidableEq, Repr

/-- `JobProcessingLog` (domain/entities, as mapped by
`JobProcessingLogRepository.mapToDomain` in the job-processing-log
repository — the second document of patient-status.repository.ts): one
idempotency-ledger row. -/
structure JobProcessingLog where
  id : String
  organizationId : String
  jobId : String
  jobType : String
  idempotencyKey : String
  status : JobStatus
  payload : JobPayload
  result : Option JobResult := none
  error : Option String := none
  startedAt : Nat := 0
  completedAt : Option Nat := none
  retryCount : Nat := 0
  createdAt : Nat := 0
  updatedAt : Nat := 0
deriving DecidableEq, Repr

/-- `JobProcessingLogRepository.findByIdempotencyKey`
(patient-status.repository.ts, second document): `WHERE idempotencyKey
= ? AND organizationId = ? LIMIT 1`, first match or null. -/
def JobProcessingLogRepository.findByIdempotencyKey (idempotencyKey organizationId : String)
    (logs : List JobProcessingLog) : Option JobProcessingLog :=
  logs.find? (fun l =>
    l.idempotencyKey == idempotencyKey && l.organizationId == organizationId)

/-- `JobProcessingLogRepository.create` (patient-status.repository.ts,
second document): inserts the row and returns it. The
database-generated id and created/updated timestamps are filled in on
the argument row by the caller-side model. -/
def JobProcessingLogRepository.create (newLog : JobProcessingLog)
    (logs : List JobProcessingLog) : JobProcessingLog × List JobProcessingLog :=
  (newLog, logs ++ [newLog])

/-- `JobProcessingLogRepository.markCompleted`
(patient-status.repository.ts, second document): `UPDATE ... SET status
= completed, result, completedAt, updatedAt WHERE id = ?`. The updated
row it returns is discarded by every caller, so only the new table is
modelled. -/
def JobProcessingLogRepository.markCompleted (id : String) (result : JobResult)
    (now : Nat) (logs : List JobProcessingLog) : List JobProcessingLog :=
  logs.map (fun l =>
    if l.id == id then
      { l with status := .completed, result := some result,
               completedAt := some now, updatedAt := now }
    else l)

/-- `JobProcessingLogRepository.markFailed`
(patient-status.repository.ts, second document): `UPDATE ... SET status
= failed, error, completedAt, updatedAt WHERE id = ?`. The updated row
it returns is discarded by every caller, so only the new table is
modelled. -/
def JobProcessingLogRepository.markFailed (id error : String) (now : Nat)
    (logs : List JobProcessingLog) : List JobProcessingLog :=
  logs.map (fun l =>
    if l.id == id then
      { l with status := .failed, error := some error,
               completedAt := some now, updatedAt := now }
    else l)

/-- The state a processor run reads and writes: the claims table and
the job-processing-log table. -/
structure PState where
  db : List Claim
  logs : List JobProcessingLog
deriving DecidableEq, Repr

/-- An injected infrastructure-fault oracle: the exception message the
storage layer raises when updating a given claim id, if any. The pure
business logic of `updateStatusInternal` never throws; a processor run
with `faults = []` is the fault-free execution. -/
def faultFor (faults : List (String × String)) (id : String) : Option String :=
  (faults.find? (fun p => p.1 == id)).map (fun p => p.2)

/-- The per-claim update loop shared by the three processors
(claim-jobs.ts): each matched claim is updated through
`updateStatusInternal` in sequence; a claim whose update returns a row
contributes its id to the result; a storage fault aborts the remaining
claims but keeps the updates already committed (each update is its own
transaction). Returns (affected ids, final claims table, raised
exception message if any). -/
def updateClaimsLoop (faults : List (String × String)) (organizationId : String)
    (target : ClaimStatus) (changedBy : String) (reason : String) (now : Nat) :
    List Claim → List Claim → List String × List Claim × Option String
  | [], db => ([], db, none)
  | c :: rest, db =>
    match faultFor faults c.id with
    | some msg => ([], db, some msg)
    | none =>
      let step := ClaimRepository.updateStatusInternal c.id organizationId target
        changedBy (some reason) now db
      let next := updateClaimsLoop faults organizationId target changedBy reason now rest step.2
      ((if step.1.isSome then c.id :: next.1 else next.1), next.2.1, next.2.2)

/-- The body of a processor attempt (the `try`/`catch` block of each
processor in claim-jobs.ts): fetch the patient's claims in the source
statuses, update each to the target status, then mark the ledger entry
`logId` completed with the result — or, on an exception, mark it failed
with the exception's message and re-raise. -/
def runClaimJobAttempt (faults : List (String × String))
    (sourceStatuses : List ClaimStatus) (target : ClaimStatus) (reason : String)
    (data : JobPayload) (now : Nat) (logId : String)
    (logs1 : List JobProcessingLog) (db : List Claim) :
    Except String JobResult × PState :=
  let cls := ClaimRepository.findByPatientIdInternal data.patientId
    data.organizationId sourceStatuses db
  let loop := updateClaimsLoop faults data.organizationId target data.triggeredBy
    reason now cls db
  match loop.2.2 with
  | some msg =>
    (.error msg, ⟨loop.2.1, JobProcessingLogRepository.markFailed logId msg now logs1⟩)
  | none =>
    let result : JobResult := ⟨loop.1.length, loop.1⟩
    (.ok result, ⟨loop.2.1, JobProcessingLogRepository.markCompleted logId result now logs1⟩)

/-- The `processing` ledger row a processor creates when no entry
exists for the key: the argument record of the
`jobProcessingLogRepository.create` call in claim-jobs.ts (status
processing, the job payload, startedAt now, retryCount 0), with the
database-generated row id `freshLogId` and row timestamps. -/
def newJobLog (jobType : String) (data : JobPayload) (now : Nat)
    (freshLogId : String) : JobProcessingLog :=
  { id := freshLogId
    organizationId := data.organizationId
    jobId := data.jobId
    jobType := jobType
    idempotencyKey := data.idempotencyKey
    status := .processing
    payload := data
    startedAt := now
    retryCount := 0
    createdAt := now
    updatedAt := now }

/-- The uniform processor algorithm (claim-jobs.ts; the three
processors differ only in job type, source statuses, target status and
reason string): look up the ledger entry by idempotency key and
organization; if completed, return its stored result verbatim with no
further action; if present but not completed, attempt processing
reusing that entry's id; if absent, create a fresh `processing` entry
and attempt. -/
def runClaimJob (faults : List (String × String)) (jobType : String)
    (sourceStatuses : List ClaimStatus) (target : ClaimStatus) (reason : String)
    (data : JobPayload) (now : Nat) (freshLogId : String) (st : PState) :
    Except String JobResult × PState :=
  match JobProcessingLogRepository.findByIdempotencyKey data.idempotencyKey
      data.organizationId st.logs with
  | some l =>
    if l.status = .completed then
      (.ok (l.result.getD ⟨0, []⟩), st)
    else
      runClaimJobAttempt faults sourceStatuses target reason data now l.id st.logs st.db
  | none =>
    let created := JobProcessingLogRepository.create
      (newJobLog jobType data now freshLogId) st.logs
    runClaimJobAttempt faults sourceStatuses target reason data now
      (created.1).id created.2 st.db

/-- `processPatientAdmission` (claim-jobs.ts): submitted →
under_review. -/
def processPatientAdmission (faults : List (String × String)) (data : JobPayload)
    (now : Nat) (freshLogId : String) (st : PState) :
    Except String JobResult × PState :=
  runClaimJob faults "patient_admission" [.submitted] .under_review
    "Automatic review triggered by patient admission" data now freshLogId st

/-- `processPatientDischarge` (claim-jobs.ts): under_review + submitted
→ approved. -/
def processPatientDischarge (faults : List (String × String)) (data : JobPayload)
    (now : Nat) (freshLogId : String) (st : PState) :
    Except String JobResult × PState :=
  runClaimJob faults "patient_discharge" [.under_review, .submitted] .approved
    "Auto-approved upon patient discharge" data now freshLogId st

/-- `processTreatmentInitiated` (claim-jobs.ts): submitted →
under_review, with the treatment type interpolated into the reason. -/
def processTreatmentInitiated (faults : List (String × String)) (data : JobPayload)
    (now : Nat) (freshLogId : String) (st : PState) :
    Except String JobResult × PState :=
  runClaimJob faults "treatment_initiated" [.submitted] .under_review
    ("Automatic review triggered by treatment: " ++ data.treatmentType.getD "")
    data now freshLogId st

/-- C2: a job-processing-log entry in `completed` state for the
payload's (idempotency key, organization) makes every processor —
admission, discharge and treatment-initiated — short-circuit: the call
returns exactly the stored result payload and performs no
claim-mutation call at all (the whole state, claims table and ledger
included, is returned untouched), regardless of any storage faults that
a fresh run would have hit. -/
theorem C2_idempotent_replay (faults : List (String × String)) (data : JobPayload)
    (now : Nat) (freshLogId : String) (st : PState) (l : JobProcessingLog)
    (r : JobResult)
    (hfind : JobProcessingLogRepository.findByIdempotencyKey data.idempotencyKey data.organizationId
      st.logs = some l)
    (hstat : l.status = .completed) (hres : l.result = some r) :
    processPatientAdmission faults data now freshLogId st = (.ok r, st) ∧
    processPatientDischarge faults data now freshLogId st = (.ok r, st) ∧
    processTreatmentInitiated faults data now freshLogId st = (.ok r, st) := by
  refine ⟨?_, ?_, ?_⟩ <;>
    simp [processPatientAdmission, processPatientDischarge, processTreatmentInitiated,
      runClaimJob, hfind, hstat, hres]

/-- The job payload used in concrete instantiations. -/
def exJobData : JobPayload :=
  { jobId := "job-1"
    organizationId := "org-1"
    patientId := "patient-1"
    triggeredBy := "system"
    idempotencyKey := "key-1" }

/-- A completed ledger entry used in concrete instantiations. -/
def exCompletedLog : JobProcessingLog :=
  { id := "log-1"
    organizationId := "org-1"
    jobId := "job-1"
    jobType := "patient_admission"
    idempotencyKey := "key-1"
    status := .completed
    payload := exJobData
    result := some ⟨2, ["claim-1", "claim-2"]⟩
    completedAt := some 50 }

/-- Witness for C2: replaying `key-1` over a completed entry returns
the stored result and leaves the state untouched, on all three
processors. -/
theorem C2_idempotent_replay_witness :
    processPatientAdmission [] exJobData 100 "log-2" ⟨[exClaim1], [exCompletedLog]⟩ =
      (.ok ⟨2, ["claim-1", "claim-2"]⟩, ⟨[exClaim1], [exCompletedLog]⟩) ∧
    processPatientDischarge [] exJobData 100 "log-2" ⟨[exClaim1], [exCompletedLog]⟩ =
      (.ok ⟨2, ["claim-1", "claim-2"]⟩, ⟨[exClaim1], [exCompletedLog]⟩) ∧
    processTreatmentInitiated [] exJobData 100 "log-2" ⟨[exClaim1], [exCompletedLog]⟩ =
      (.ok ⟨2, ["claim-1", "claim-2"]⟩, ⟨[exClaim1], [exCompletedLog]⟩) :=
  C2_idempotent_replay [] exJobData 100 "log-2" ⟨[exClaim1], [exCompletedLog]⟩
    exCompletedLog ⟨2, ["claim-1", "claim-2"]⟩ (by decide) rfl rfl

/-- C7: the Processors' internal update path. (a) The org-scoped lookup
it uses only ever yields a claim of the given organization — the tenant
predicate is applied even though the role predicate is skipped; in
particular, if no claim with the id belongs to that organization the
update is a no-op returning null. (b) When the claim it finds is
currently approved or paid it silently skips: it returns null, raises
nothing (the function is total and returns a plain pair), and leaves
the claims table unchanged. -/
theorem C7_internal_tenant_and_silent_skip (id organizationId : String)
    (newStatus : ClaimStatus) (changedBy : String) (reason : Option String)
    (now : Nat) (db : List Claim) :
    (∀ c, ClaimRepository.internalFind id organizationId db = some c →
      c.organizationId = organizationId) ∧
    (ClaimRepository.internalFind id organizationId db = none →
      ClaimRepository.updateStatusInternal id organizationId newStatus changedBy
        reason now db = (none, db)) ∧
    (∀ c, ClaimRepository.internalFind id organizationId db = some c →
      c.status = .approved ∨ c.status = .paid →
      ClaimRepository.updateStatusInternal id organizationId newStatus changedBy
        reason now db = (none, db)) := by
  refine ⟨?_, ?_, ?_⟩
  · intro c hc
    have hp := List.find?_some hc
    simp only [Bool.and_eq_true, beq_iff_eq] at hp
    exact hp.2
  · intro hnone
    simp [ClaimRepository.updateStatusInternal, hnone]
  · intro c hc hterm
    simp [ClaimRepository.updateStatusInternal, hc, hterm]

/-- An approved claim of organization `org-1` used in concrete
instantiations. -/
def exApproved : Claim :=
  { id := "claim-3"
    organizationId := "org-1"
    claimNumber := "CLM-HF-003"
    patientId := "patient-2"
    providerId := "provider-1"
    diagnosisCode := "I10"
    amount := 450
    status := .approved
    serviceDate := 5
    submittedAt := 6
    processedAt := some 8
    assignedTo := some "processor-user-1"
    statusHistory := [{ fromStatus := none, toStatus := .submitted,
                        changedBy := "provider-user-1", changedAt := 6,
                        reason := some "Initial submission" },
                      { fromStatus := some .submitted, toStatus := .approved,
                        changedBy := "processor-user-1", changedAt := 8,
                        reason := some "Approved after review" }] }

/-- Witness for C7: the internal update on the approved `claim-3`
returns null and leaves the table unchanged, and an id that exists only
in another organization is not found. -/
theorem C7_internal_tenant_and_silent_skip_witness :
    ClaimRepository.updateStatusInternal "claim-3" "org-1" .under_review "system"
      none 100 [exApproved] = (none, [exApproved]) ∧
    ClaimRepository.updateStatusInternal "claim-3" "org-2" .under_review "system"
      none 100 [exApproved] = (none, [exApproved]) := by
  constructor
  · exact (C7_internal_tenant_and_silent_skip "claim-3" "org-1" .under_review
      "system" none 100 [exApproved]).2.2 exApproved (by decide) (by decide)
  · exact (C7_internal_tenant_and_silent_skip "claim-3" "org-2" .under_review
      "system" none 100 [exApproved]).2.1 (by decide)

/-- C10: frame of the internal update path. A claim returned by a
successful `updateStatusInternal` differs from the stored claim only in
`status`, `statusHistory` (one appended entry) and `updatedAt`:
`processedAt` and `paidAt` are never written by this path — so a claim
auto-approved by the discharge processor keeps `processedAt` unset —
and `amount`, `diagnosisCode`, `patientId`, `providerId`,
`denialReason` and `assignedTo` are likewise untouched. -/
theorem C10_internal_update_frame (id organizationId : String)
    (newStatus : ClaimStatus) (changedBy : String) (reason : Option String)
    (now : Nat) (db : List Claim) (claim u : Claim) (db2 : List Claim)
    (hfind : ClaimRepository.internalFind id organizationId db = some claim)
    (hrun : ClaimRepository.updateStatusInternal id organizationId newStatus
      changedBy reason now db = (some u, db2)) :
    u.processedAt = claim.processedAt ∧ u.paidAt = claim.paidAt ∧
    u.amount = claim.amount ∧ u.diagnosisCode = claim.diagnosisCode ∧
    u.patientId = claim.patientId ∧ u.providerId = claim.providerId ∧
    u.denialReason = claim.denialReason ∧ u.assignedTo = claim.assignedTo ∧
    u.status = newStatus ∧
    u.statusHistory = claim.statusHistory ++
      [{ fromStatus := some claim.status, toStatus := newStatus,
         changedBy := changedBy, changedAt := now, reason := reason }] ∧
    u.updatedAt = now := by
  unfold ClaimRepository.updateStatusInternal at hrun
  rw [hfind] at hrun
  by_cases hterm : claim.status = .approved ∨ claim.status = .paid
  · simp [hterm] at hrun
  · simp only [if_neg hterm, Prod.mk.injEq, Option.some.injEq] at hrun
    obtain ⟨hu, -⟩ := hrun
    subst hu
    simp

/-- The row the discharge-style internal approval of `claim-1`
produces. -/
def exClaim1Approved : Claim :=
  { exClaim1 with
      status := .approved
      statusHistory := exClaim1.statusHistory ++
        [{ fromStatus := some .submitted, toStatus := .approved,
           changedBy := "system", changedAt := 100,
           reason := some "Auto-approved upon patient discharge" }]
      updatedAt := 100 }

/-- Witness for C10: the discharge-style internal approval of the
submitted `claim-1` yields status approved with `processedAt` (and
`paidAt`) still unset and every other business field unchanged. -/
theorem C10_internal_update_frame_witness :
    exClaim1Approved.processedAt = exClaim1.processedAt ∧
    exClaim1Approved.paidAt = exClaim1.paidAt ∧
    exClaim1Approved.amount = exClaim1.amount ∧
    exClaim1Approved.diagnosisCode = exClaim1.diagnosisCode ∧
    exClaim1Approved.patientId = exClaim1.patientId ∧
    exClaim1Approved.providerId = exClaim1.providerId ∧
    exClaim1Approved.denialReason = exClaim1.denialReason ∧
    exClaim1Approved.assignedTo = exClaim1.assignedTo ∧
    exClaim1Approved.status = .approved ∧
    exClaim1Approved.statusHistory = exClaim1.statusHistory ++
      [{ fromStatus := some exClaim1.status, toStatus := .approved,
         changedBy := "system", changedAt := 100,
         reason := some "Auto-approved upon patient discharge" }] ∧
    exClaim1Approved.updatedAt = 100 :=
  C10_internal_update_frame "claim-1" "org-1" .approved "system"
    (some "Auto-approved upon patient discharge") 100 [exClaim1] exClaim1
    exClaim1Approved [exClaim1Approved] (by decide) (by decide)

/-- C9: every successful `updateStatus` appends exactly one entry to
the found claim's status history, keeping all prior entries unchanged,
and handles the processed/paid timestamps idempotently: `processedAt`
is set (to the transaction time) only when the new status first enters
approved/rejected while it is still unset, `paidAt` only when the new
status first enters paid while it is still unset, and an already-set
timestamp is returned unchanged, never overwritten. -/
theorem C9_history_append_and_timestamps (id : String) (newStatus : ClaimStatus)
    (context : TenantContext) (reason : Option String) (now : Nat)
    (db : List Claim) (claim u : Claim) (db2 : List Claim)
    (hfind : ClaimRepository.scopedFind id context db = some claim)
    (hrun : ClaimRepository.updateStatus id newStatus context reason now db =
      .ok (some u, db2)) :
    u.statusHistory = claim.statusHistory ++
      [{ fromStatus := some claim.status, toStatus := newStatus,
         changedBy := context.userId, changedAt := now, reason := reason }] ∧
    (∀ t, claim.processedAt = some t → u.processedAt = some t) ∧
    (∀ t, claim.paidAt = some t → u.paidAt = some t) ∧
    u.processedAt = (if (newStatus = .approved ∨ newStatus = .rejected) ∧
      claim.processedAt = none then some now else claim.processedAt) ∧
    u.paidAt = (if newStatus = .paid ∧ claim.paidAt = none then some now
      else claim.paidAt) := by
  unfold ClaimRepository.updateStatus at hrun
  cases hp : PermissionHelper.canUpdateClaimStatus context.role with
  | false => simp [PermissionHelper.requirePermission, hp] at hrun
  | true =>
    simp only [PermissionHelper.requirePermission, hp, if_true, hfind] at hrun
    by_cases hterm : claim.status = .approved ∨ claim.status = .paid
    · simp [hterm] at hrun
    · rw [if_neg hterm] at hrun
      by_cases hassign : context.role = .claims_processor ∧
          claim.assignedTo ≠ some context.userId
      · simp [hassign] at hrun
      · rw [if_neg hassign] at hrun
        simp only [Except.ok.injEq, Prod.mk.injEq, Option.some.injEq] at hrun
        obtain ⟨hu, -⟩ := hrun
        subst hu
        refine ⟨rfl, ?_, ?_, rfl, rfl⟩
        · intro t ht
          simp [ht]
        · intro t ht
          simp [ht]

/-- An admin context of organization `org-1`. -/
def exAdmin1 : TenantContext :=
  { organizationId := "org-1", userId := "admin-1", role := .admin }

/-- A provider-role context of organization `org-1` scoped to
`provider-1`. -/
def exProviderCtx : TenantContext :=
  { organizationId := "org-1", userId := "provider-user-1", role := .provider,
    providerId := some "provider-1" }

/-- Counterexample to C3 as stated: a provider-role caller invoking
`updateStatus` on the approved `claim-3` of their own organization and
provider does not receive ClaimNotModifiable — the permission gate
rejects the role first with a ForbiddenError — so "always fails with
ClaimNotModifiable ... for every caller role" is false. -/
theorem C3_counterexample :
    ClaimRepository.updateStatus "claim-3" .under_review exProviderCtx none 100
      [exApproved] =
      .error (.forbidden ("Role " ++ "provider" ++ " is not allowed to " ++
        "update claim status")) := by
  rfl

/-- C3 (amended): on a claim currently approved or paid that the
caller's tenant- and role-scoped lookup reaches, `updateStatus` fails
with ClaimNotModifiable whenever the caller's role is permitted to
update statuses at all (admin or claims_processor — in particular the
assignment double-check cannot bypass it, since terminality is tested
first); a role without that permission (provider, patient) fails
earlier with Forbidden; and in every case no new status is applied: the
call never returns a successfully updated claim, and every error
outcome aborts the transaction leaving the table unchanged. -/
theorem C3_terminal_immutability (id : String) (newStatus : ClaimStatus)
    (context : TenantContext) (reason : Option String) (now : Nat)
    (db : List Claim) (claim : Claim)
    (hfind : ClaimRepository.scopedFind id context db = some claim)
    (hterm : claim.status = .approved ∨ claim.status = .paid) :
    (PermissionHelper.canUpdateClaimStatus context.role = true →
      ClaimRepository.updateStatus id newStatus context reason now db =
        .error (.claimNotModifiable id claim.status)) ∧
    (PermissionHelper.canUpdateClaimStatus context.role = false →
      ClaimRepository.updateStatus id newStatus context reason now db =
        .error (.forbidden ("Role " ++ roleText context.role ++
          " is not allowed to " ++ "update claim status"))) ∧
    (∀ u db2, ClaimRepository.updateStatus id newStatus context reason now db ≠
      .ok (some u, db2)) := by
  refine ⟨?_, ?_, ?_⟩
  · intro hp
    simp [ClaimRepository.updateStatus, PermissionHelper.requirePermission, hp,
      hfind, hterm]
  · intro hp
    simp [ClaimRepository.updateStatus, PermissionHelper.requirePermission, hp]
  · intro u db2
    cases hp : PermissionHelper.canUpdateClaimStatus context.role
    · simp [ClaimRepository.updateStatus, PermissionHelper.requirePermission, hp]
    · simp [ClaimRepository.updateStatus, PermissionHelper.requirePermission, hp,
        hfind, hterm]

/-- Witness for the amended C3: the org-1 admin gets ClaimNotModifiable
on the approved `claim-3`, and the provider role gets Forbidden on the
same claim. -/
theorem C3_terminal_immutability_witness :
    ClaimRepository.updateStatus "claim-3" .under_review exAdmin1 none 100
      [exApproved] = .error (.claimNotModifiable "claim-3" .approved) ∧
    ClaimRepository.updateStatus "claim-3" .under_review exProviderCtx none 100
      [exApproved] =
      .error (.forbidden ("Role " ++ roleText exProviderCtx.role ++
        " is not allowed to " ++ "update claim status")) := by
  constructor
  · exact (C3_terminal_immutability "claim-3" .under_review exAdmin1 none 100
      [exApproved] exApproved (by decide) (by decide)).1 (by decide)
  · exact (C3_terminal_immutability "claim-3" .under_review exProviderCtx none 100
      [exApproved] exApproved (by decide) (by decide)).2.1 (by decide)

/-- The role filter of a claims_processor with an empty (or absent)
assigned-id set holds of no real claim: it reduces to the
matches-nothing condition `id = 'no-access'`, and claim ids are
database-generated UUIDs. -/
theorem buildRoleFilter_empty_assignment (context : TenantContext)
    (hrole : context.role = .claims_processor)
    (hassigned : context.assignedClaimIds = none ∨
      context.assignedClaimIds = some []) (c : Claim)
    (hid : c.id ≠ "no-access") :
    ClaimRepository.buildRoleFilter context c = false := by
  unfold ClaimRepository.buildRoleFilter
  rw [hrole]
  rcases hassigned with h | h <;> rw [h] <;> simp [hid]

/-- C4: a claims_processor context whose assigned-claim-id set is empty
or absent can access zero claims, even ones of its own organization:
over any claims table (whose ids, being database-generated UUIDs, are
never the literal `no-access`), `findById` finds nothing, `findMany`
returns no rows and total 0, `count` returns 0, and `updateStatus`
reaches no claim (it returns the null outcome the service surfaces as
NotFound, with the table unchanged). -/
theorem C4_processor_empty_assignment (context : TenantContext)
    (hrole : context.role = .claims_processor)
    (hassigned : context.assignedClaimIds = none ∨
      context.assignedClaimIds = some [])
    (db : List Claim) (hdb : ∀ c ∈ db, c.id ≠ "no-access") :
    (∀ i, ClaimRepository.findById i context db = none) ∧
    (∀ filters sort limit offset,
      (ClaimRepository.findMany context filters sort limit offset db).data = [] ∧
      (ClaimRepository.findMany context filters sort limit offset db).total = 0) ∧
    (∀ filters, ClaimRepository.count context filters db = 0) ∧
    (∀ i newStatus reason now,
      ClaimRepository.updateStatus i newStatus context reason now db =
        .ok (none, db)) := by
  have hrf : ∀ c ∈ db, ClaimRepository.buildRoleFilter context c = false :=
    fun c hc => buildRoleFilter_empty_assignment context hrole hassigned c (hdb c hc)
  have hfilter : ∀ (extra : Claim → Bool),
      db.filter (fun c => tenantFilter context c &&
        ClaimRepository.buildRoleFilter context c && extra c) = [] := by
    intro extra
    apply List.filter_eq_nil_iff.mpr
    intro c hc
    simp [hrf c hc]
  have hfind : ∀ i, ClaimRepository.scopedFind i context db = none := by
    intro i
    apply List.find?_eq_none.mpr
    intro c hc
    simp [hrf c hc]
  refine ⟨hfind, ?_, ?_, ?_⟩
  · intro filters sort limit offset
    unfold ClaimRepository.findMany
    simp only [hfilter]
    constructor
    · simp [sortClaims]
    · simp
  · intro filters
    unfold ClaimRepository.count
    simp [hfilter]
  · intro i newStatus reason now
    have hp : PermissionHelper.canUpdateClaimStatus context.role = true := by
      rw [hrole]; rfl
    simp [ClaimRepository.updateStatus, PermissionHelper.requirePermission, hp,
      hfind i]

/-- A claims_processor context of `org-1` with an empty assignment
set. -/
def exEmptyProcessor : TenantContext :=
  { organizationId := "org-1", userId := "processor-user-9",
    role := .claims_processor, assignedClaimIds := some [] }

/-- Witness for C4: against a table holding org-1's `claim-1`, the
empty-assignment processor of the same organization sees nothing
through `findById`, `findMany`, `count` and `updateStatus`. -/
theorem C4_processor_empty_assignment_witness :
    ClaimRepository.findById "claim-1" exEmptyProcessor [exClaim1] = none ∧
    (ClaimRepository.findMany exEmptyProcessor none none 20 0 [exClaim1]).data = [] ∧
    ClaimRepository.count exEmptyProcessor none [exClaim1] = 0 ∧
    ClaimRepository.updateStatus "claim-1" .approved exEmptyProcessor none 100
      [exClaim1] = .ok (none, [exClaim1]) := by
  have h := C4_processor_empty_assignment exEmptyProcessor rfl (Or.inr rfl)
    [exClaim1] (by decide)
  exact ⟨h.1 "claim-1", (h.2.1 none none 20 0).1, h.2.2.1 none,
    h.2.2.2 "claim-1" .approved none 100⟩

/-- Counterexample to C5 as stated: the org-1 admin moves the submitted
`claim-1` directly to paid — a transition outside the declared workflow
— and the call succeeds with the new status applied, instead of failing
with an InvalidStatusTransition validation error. -/
theorem C5_counterexample :
    (ClaimRepository.updateStatus "claim-1" .paid exAdmin1 none 100
        [exClaim1]).map (fun r => r.1.map Claim.status) = .ok (some .paid) := by
  rfl

/-- C5 (amended): `updateStatus` enforces no transition graph. The only
state-machine rule it applies is terminal-state immutability: on a
claim whose current status is not approved and not paid, any of the
five statuses — legal next step or not — is accepted and applied,
provided the caller's role may update statuses and, for a
claims_processor, the claim's assigned-processor field matches the
caller. `InvalidClaimStatusTransitionError` exists in the error module
but is never raised. -/
theorem C5_no_transition_validation (id : String) (newStatus : ClaimStatus)
    (context : TenantContext) (reason : Option String) (now : Nat)
    (db : List Claim) (claim : Claim)
    (hfind : ClaimRepository.scopedFind id context db = some claim)
    (hterm : ¬(claim.status = .approved ∨ claim.status = .paid))
    (hperm : PermissionHelper.canUpdateClaimStatus context.role = true)
    (hassign : ¬(context.role = .claims_processor ∧
      claim.assignedTo ≠ some context.userId)) :
    (ClaimRepository.updateStatus id newStatus context reason now db).map
      (fun r => r.1.map Claim.status) = .ok (some newStatus) := by
  simp [ClaimRepository.updateStatus, PermissionHelper.requirePermission, hperm,
    hfind, hterm, hassign]
  rfl

/-- Witness for the amended C5: the admin's out-of-workflow submitted →
paid update on `claim-1` goes through with the new status applied. -/
theorem C5_no_transition_validation_witness :
    (ClaimRepository.updateStatus "claim-1" .paid exAdmin1 none 100
        [exClaim1]).map (fun r => r.1.map Claim.status) = .ok (some .paid) :=
  C5_no_transition_validation "claim-1" .paid exAdmin1 none 100 [exClaim1]
    exClaim1 (by decide) (by decide) (by decide) (by decide)

/-- C6, evaluated at the failing input: a provider-role caller
(`provider-1`) creating a claim for the nonexistent `ghost-provider`
receives `NotFoundError("Provider", ...)`, not Forbidden —
`ClaimsService.createClaim` checks provider existence (claims.service
lines 57-61) before the provider self-restriction (lines 63-66), so the
self-restriction is not checked before the existence lookup as the spec
and the service test ("should throw before even checking if provider
exists") require. The repository-level `ClaimRepository.create` does
place the self-restriction before any lookup, but the service path is
the one callers reach. -/
theorem C6_provider_probe_failing_input :
    ClaimsService.createClaim
      { patientId := "patient-1", providerId := "ghost-provider",
        diagnosisCode := "J06.9", amount := 150, serviceDate := 10 }
      exProviderCtx
      [{ id := "patient-1", organizationId := "org-1" }]
      [{ id := "provider-1", organizationId := "org-1" }]
      "CLM-TEST" "new-claim-id" 100 [] =
      .error (.notFound "Provider" "ghost-provider") := by
  rfl

/-- Looking up by idempotency key commutes with mapping a function that
preserves the key and organization fields. -/
theorem JobProcessingLogRepository.find_map (key org : String)
    (f : JobProcessingLog → JobProcessingLog)
    (hf : ∀ l, (f l).idempotencyKey = l.idempotencyKey ∧
      (f l).organizationId = l.organizationId)
    (logs : List JobProcessingLog) :
    JobProcessingLogRepository.findByIdempotencyKey key org (logs.map f) =
      (JobProcessingLogRepository.findByIdempotencyKey key org logs).map f := by
  unfold JobProcessingLogRepository.findByIdempotencyKey
  rw [List.find?_map]
  have hp : ((fun l => l.idempotencyKey == key && l.organizationId == org) ∘ f) =
      (fun (l : JobProcessingLog) => l.idempotencyKey == key && l.organizationId == org) := by
    funext l
    simp [(hf l).1, (hf l).2]
  rw [hp]

/-- `markFailed` relocates the key lookup pointwise. -/
theorem JobProcessingLogRepository.find_markFailed (key org logId msg : String)
    (now : Nat) (logs : List JobProcessingLog) :
    JobProcessingLogRepository.findByIdempotencyKey key org
        (JobProcessingLogRepository.markFailed logId msg now logs) =
      (JobProcessingLogRepository.findByIdempotencyKey key org logs).map (fun l =>
        if l.id == logId then
          { l with status := .failed, error := some msg,
                   completedAt := some now, updatedAt := now }
        else l) := by
  unfold JobProcessingLogRepository.markFailed
  apply JobProcessingLogRepository.find_map
  intro l
  cases h : l.id == logId <;> simp [h]

/-- `markCompleted` relocates the key lookup pointwise. -/
theorem JobProcessingLogRepository.find_markCompleted (key org logId : String)
    (result : JobResult) (now : Nat) (logs : List JobProcessingLog) :
    JobProcessingLogRepository.findByIdempotencyKey key org
        (JobProcessingLogRepository.markCompleted logId result now logs) =
      (JobProcessingLogRepository.findByIdempotencyKey key org logs).map (fun l =>
        if l.id == logId then
          { l with status := .completed, result := some result,
                   completedAt := some now, updatedAt := now }
        else l) := by
  unfold JobProcessingLogRepository.markCompleted
  apply JobProcessingLogRepository.find_map
  intro l
  cases h : l.id == logId <;> simp [h]

/-- A processor attempt ends in exactly one of two ways: an exception
whose message is recorded by `markFailed` on the entry `logId` and then
re-raised, or a success recorded by `markCompleted` on that entry. -/
theorem runClaimJobAttempt_cases (faults : List (String × String))
    (sourceStatuses : List ClaimStatus) (target : ClaimStatus) (reason : String)
    (data : JobPayload) (now : Nat) (logId : String)
    (logs1 : List JobProcessingLog) (db : List Claim) :
    (∃ msg db2, runClaimJobAttempt faults sourceStatuses target reason data now
        logId logs1 db =
      (.error msg, ⟨db2, JobProcessingLogRepository.markFailed logId msg now logs1⟩)) ∨
    (∃ res db2, runClaimJobAttempt faults sourceStatuses target reason data now
        logId logs1 db =
      (.ok res, ⟨db2, JobProcessingLogRepository.markCompleted logId res now logs1⟩)) := by
  generalize hloop : updateClaimsLoop faults data.organizationId target
      data.triggeredBy reason now
      (ClaimRepository.findByPatientIdInternal data.patientId data.organizationId
        sourceStatuses db) db = loop
  obtain ⟨ids, db2, err⟩ := loop
  cases err with
  | none =>
    right
    exact ⟨⟨ids.length, ids⟩, db2, by simp [runClaimJobAttempt, hloop]⟩
  | some msg =>
    left
    exact ⟨msg, db2, by simp [runClaimJobAttempt, hloop]⟩

/-- Ledger discipline of one processor run (shared by the three
processors): exceptions are recorded as `failed` with their message and
re-raised; a non-completed pre-existing entry is reused (no new entry,
same entry id, ends completed or failed); a missing entry — and only a
missing entry — leads to the creation of exactly one new row. -/
theorem runClaimJob_ledger_spec (faults : List (String × String))
    (jobType : String) (sourceStatuses : List ClaimStatus) (target : ClaimStatus)
    (reason : String) (data : JobPayload) (now : Nat) (freshLogId : String)
    (st : PState) :
    (∀ msg st2,
      runClaimJob faults jobType sourceStatuses target reason data now freshLogId
        st = (.error msg, st2) →
      ∃ l2, JobProcessingLogRepository.findByIdempotencyKey data.idempotencyKey
          data.organizationId st2.logs = some l2 ∧
        l2.status = .failed ∧ l2.error = some msg) ∧
    (∀ l, JobProcessingLogRepository.findByIdempotencyKey data.idempotencyKey data.organizationId
        st.logs = some l →
      l.status ≠ .completed →
      ((runClaimJob faults jobType sourceStatuses target reason data now
          freshLogId st).2).logs.length = st.logs.length ∧
      ∃ l2, JobProcessingLogRepository.findByIdempotencyKey data.idempotencyKey
          data.organizationId
          ((runClaimJob faults jobType sourceStatuses target reason data now
            freshLogId st).2).logs = some l2 ∧
        l2.id = l.id ∧ (l2.status = .completed ∨ l2.status = .failed)) ∧
    (JobProcessingLogRepository.findByIdempotencyKey data.idempotencyKey data.organizationId
        st.logs = none →
      ((runClaimJob faults jobType sourceStatuses target reason data now
          freshLogId st).2).logs.length = st.logs.length + 1) := by
  cases hfind : JobProcessingLogRepository.findByIdempotencyKey data.idempotencyKey
      data.organizationId st.logs with
  | some l =>
    by_cases hc : l.status = .completed
    · have hrun : runClaimJob faults jobType sourceStatuses target reason data now
          freshLogId st = (.ok (l.result.getD ⟨0, []⟩), st) := by
        simp [runClaimJob, hfind, hc]
      refine ⟨?_, ?_, ?_⟩
      · intro msg st2 h
        rw [hrun] at h
        simp at h
      · intro l' hl' hne
        injection hl' with hl'
        exact absurd (hl' ▸ hc) hne
      · intro h
        simp at h
    · have hrun : runClaimJob faults jobType sourceStatuses target reason data now
          freshLogId st =
          runClaimJobAttempt faults sourceStatuses target reason data now l.id
            st.logs st.db := by
        simp [runClaimJob, hfind, hc]
      rcases runClaimJobAttempt_cases faults sourceStatuses target reason data now
          l.id st.logs st.db with ⟨msg, db2, hatt⟩ | ⟨res, db2, hatt⟩
      · rw [hrun, hatt]
        dsimp only
        refine ⟨?_, ?_, ?_⟩
        · intro msg' st2 h
          injection h with h1 h2
          injection h1 with h1
          subst h1
          subst h2
          refine ⟨{ l with status := JobStatus.failed, error := some msg, completedAt := some now, updatedAt := now }, ?_, rfl, rfl⟩
          dsimp only
          rw [JobProcessingLogRepository.find_markFailed, hfind]
          simp
        · intro l' hl' hne
          injection hl' with hl'
          subst hl'
          constructor
          · simp [JobProcessingLogRepository.markFailed]
          · refine ⟨{ l with status := JobStatus.failed, error := some msg, completedAt := some now, updatedAt := now }, ?_, rfl, Or.inr rfl⟩
            rw [JobProcessingLogRepository.find_markFailed, hfind]
            simp
        · intro h
          simp at h
      · rw [hrun, hatt]
        dsimp only
        refine ⟨?_, ?_, ?_⟩
        · intro msg' st2 h
          injection h with h1 h2
          simp at h1
        · intro l' hl' hne
          injection hl' with hl'
          subst hl'
          constructor
          · simp [JobProcessingLogRepository.markCompleted]
          · refine ⟨{ l with status := JobStatus.completed, result := some res, completedAt := some now, updatedAt := now }, ?_, rfl, Or.inl rfl⟩
            rw [JobProcessingLogRepository.find_markCompleted, hfind]
            simp
        · intro h
          simp at h
  | none =>
    have hnew : JobProcessingLogRepository.findByIdempotencyKey data.idempotencyKey
        data.organizationId
        (st.logs ++ [newJobLog jobType data now freshLogId]) =
        some (newJobLog jobType data now freshLogId) := by
      unfold JobProcessingLogRepository.findByIdempotencyKey at hfind ⊢
      rw [List.find?_append, hfind]
      simp [newJobLog]
    have hrun : runClaimJob faults jobType sourceStatuses target reason data now
        freshLogId st =
        runClaimJobAttempt faults sourceStatuses target reason data now freshLogId
          (st.logs ++ [newJobLog jobType data now freshLogId]) st.db := by
      simp [runClaimJob, hfind, JobProcessingLogRepository.create, newJobLog]
    rcases runClaimJobAttempt_cases faults sourceStatuses target reason data now
        freshLogId (st.logs ++ [newJobLog jobType data now freshLogId]) st.db with
        ⟨msg, db2, hatt⟩ | ⟨res, db2, hatt⟩
    · rw [hrun, hatt]
      dsimp only
      refine ⟨?_, ?_, ?_⟩
      · intro msg' st2 h
        injection h with h1 h2
        injection h1 with h1
        subst h1
        subst h2
        refine ⟨{ newJobLog jobType data now freshLogId with status := JobStatus.failed, error := some msg, completedAt := some now, updatedAt := now }, ?_, rfl, rfl⟩
        dsimp only
        rw [JobProcessingLogRepository.find_markFailed, hnew]
        simp [newJobLog]
      · intro l' hl' hne
        simp at hl'
      · intro h
        simp [JobProcessingLogRepository.markFailed]
    · rw [hrun, hatt]
      dsimp only
      refine ⟨?_, ?_, ?_⟩
      · intro msg' st2 h
        injection h with h1 h2
        simp at h1
      · intro l' hl' hne
        simp at hl'
      · intro h
        simp [JobProcessingLogRepository.markCompleted]

/-- C8: for every admission-processor run, (a) if an exception is
raised during processing, the ledger entry is marked failed carrying
that exception's message and the exception is re-raised to the caller
(the run's result is exactly that error); (b) a pre-existing ledger
entry in a non-completed state (processing or failed) does not
short-circuit the run — the processor attempts processing reusing that
entry's id, no new entry is created, and the entry ends completed or
failed; (c) a new entry is created exactly when none exists for the
key. -/
theorem C8_exception_ledger_and_retry (faults : List (String × String))
    (data : JobPayload) (now : Nat) (freshLogId : String) (st : PState) :
    (∀ msg st2,
      processPatientAdmission faults data now freshLogId st = (.error msg, st2) →
      ∃ l2, JobProcessingLogRepository.findByIdempotencyKey data.idempotencyKey
          data.organizationId st2.logs = some l2 ∧
        l2.status = .failed ∧ l2.error = some msg) ∧
    (∀ l, JobProcessingLogRepository.findByIdempotencyKey data.idempotencyKey data.organizationId
        st.logs = some l →
      l.status ≠ .completed →
      ((processPatientAdmission faults data now freshLogId st).2).logs.length =
        st.logs.length ∧
      ∃ l2, JobProcessingLogRepository.findByIdempotencyKey data.idempotencyKey
          data.organizationId
          ((processPatientAdmission faults data now freshLogId st).2).logs =
          some l2 ∧
        l2.id = l.id ∧ (l2.status = .completed ∨ l2.status = .failed)) ∧
    (JobProcessingLogRepository.findByIdempotencyKey data.idempotencyKey data.organizationId
        st.logs = none →
      ((processPatientAdmission faults data now freshLogId st).2).logs.length =
        st.logs.length + 1) :=
  runClaimJob_ledger_spec faults "patient_admission" [.submitted] .under_review
    "Automatic review triggered by patient admission" data now freshLogId st

/-- A failed ledger entry for `key-1` used in concrete
instantiations. -/
def exFailedLog : JobProcessingLog :=
  { id := "log-9"
    organizationId := "org-1"
    jobId := "job-1"
    jobType := "patient_admission"
    idempotencyKey := "key-1"
    status := .failed
    payload := exJobData
    error := some "Database connection failed" }

/-- Witness for C8: with a storage fault injected on `claim-1`, the
run's exception message lands on the ledger entry as a failure reason;
and a pre-existing failed entry does not block the retry — the
fault-free re-run keeps the ledger at one row, reusing entry `log-9`,
which ends completed or failed. -/
theorem C8_exception_ledger_and_retry_witness :
    (∃ l2, JobProcessingLogRepository.findByIdempotencyKey "key-1" "org-1"
        [{ exFailedLog with completedAt := some 100, updatedAt := 100 }] =
        some l2 ∧ l2.status = .failed ∧
        l2.error = some "Database connection failed") ∧
    ((processPatientAdmission [] exJobData 100 "log-new"
        ⟨[exClaim1], [exFailedLog]⟩).2).logs.length = 1 ∧
    (∃ l2, JobProcessingLogRepository.findByIdempotencyKey "key-1" "org-1"
        ((processPatientAdmission [] exJobData 100 "log-new"
          ⟨[exClaim1], [exFailedLog]⟩).2).logs = some l2 ∧
      l2.id = "log-9" ∧ (l2.status = .completed ∨ l2.status = .failed)) := by
  refine ⟨?_, ?_, ?_⟩
  · exact (C8_exception_ledger_and_retry
      [("claim-1", "Database connection failed")] exJobData 100 "log-new"
      ⟨[exClaim1], [exFailedLog]⟩).1 "Database connection failed"
      ⟨[exClaim1], [{ exFailedLog with completedAt := some 100, updatedAt := 100 }]⟩ rfl
  · exact ((C8_exception_ledger_and_retry [] exJobData 100 "log-new"
      ⟨[exClaim1], [exFailedLog]⟩).2.1 exFailedLog rfl (by decide)).1
  · exact ((C8_exception_ledger_and_retry [] exJobData 100 "log-new"
      ⟨[exClaim1], [exFailedLog]⟩).2.1 exFailedLog rfl (by decide)).2

/-- The row the admin's synchronous approval of `claim-1` produces. -/
def exClaim1AdminApproved : Claim :=
  { exClaim1 with
      status := .approved
      statusHistory := exClaim1.statusHistory ++
        [{ fromStatus := some .submitted, toStatus := .approved,
           changedBy := "admin-1", changedAt := 100, reason := none }]
      processedAt := some 100
      updatedAt := 100 }

/-- Witness for C9: the admin approving the submitted `claim-1` appends
exactly one history entry after the existing one and sets `processedAt`
to the transaction time (it was unset) while leaving `paidAt` unset. -/
theorem C9_history_append_and_timestamps_witness :
    exClaim1AdminApproved.statusHistory = exClaim1.statusHistory ++
      [{ fromStatus := some exClaim1.status, toStatus := .approved,
         changedBy := exAdmin1.userId, changedAt := 100, reason := none }] ∧
    (∀ t, exClaim1.processedAt = some t →
      exClaim1AdminApproved.processedAt = some t) ∧
    (∀ t, exClaim1.paidAt = some t → exClaim1AdminApproved.paidAt = some t) ∧
    exClaim1AdminApproved.processedAt =
      (if (ClaimStatus.approved = .approved ∨ ClaimStatus.approved = .rejected) ∧
        exClaim1.processedAt = none then some 100 else exClaim1.processedAt) ∧
    exClaim1AdminApproved.paidAt =
      (if ClaimStatus.approved = .paid ∧ exClaim1.paidAt = none then some 100
        else exClaim1.paidAt) :=
  C9_history_append_and_timestamps "claim-1" .approved exAdmin1 none 100
    [exClaim1] exClaim1 exClaim1AdminApproved [exClaim1AdminApproved]
    (by decide) rfl
